import Mathlib

/-
A verification development for the lazyregistry library: a lazy-binding
key-value registry.  Callers register names against either a deferred
import-locator string (shape `module_path:attribute_path`) or an
already-resolved object; resolution of deferred references happens only on
first lookup, with the resolved value cached in place.  Registries are
grouped under string keys in an auto-creating Namespace.

The core module (`lazyregistry/registry.py`) is embedded here from the
specification, since only its package declaration, tests and example callers
ship in the tree; each modelled operation carries a doc comment saying so.
Dynamic import is treated as an opaque external capability: an environment
mapping locator strings to the object they denote (`none` when the module or
attribute path cannot be loaded).
-/

set_option autoImplicit false

namespace LazyRegistry

/-- A Python runtime value as far as the registry can observe it: either a
plain string (the only case the registry inspects, via `isinstance(v, str)`)
or an opaque non-string object identified by a numeric identity. -/
inductive PyVal where
  | str : String → PyVal
  | obj : Nat → PyVal
deriving DecidableEq, Repr

/-- A stored mapping slot: either a pending `ImportString` locator (written
but not yet resolved) or a plain value held verbatim / already resolved. -/
inductive Slot where
  | importString : String → Slot
  | plain : PyVal → Slot
deriving DecidableEq, Repr

/-- The opaque dynamic-import capability: maps a locator string
`module_path:attribute_path` to the object it denotes, or `none` when the
module or attribute path cannot be loaded. -/
abbrev Env : Type := String → Option PyVal

/-- The two failure signals of the core: a missing key on read, and a
locator whose module or attribute path could not be loaded. -/
inductive Err where
  | keyError : Err
  | resolutionError : Err
deriving DecidableEq, Repr

/-- Modelled from the spec: `ImportString.load()` performs the dynamic load
of the wrapped locator string and returns the target object, failing with a
resolution error when the module or attribute path does not exist.  The
load itself is the opaque external capability `env`. -/
def ImportString.load (env : Env) (s : String) : Except Err PyVal :=
  match env s with
  | some v => .ok v
  | none => .error .resolutionError

/-- Association-list lookup: the value stored under `k`, if any. -/
def lookupEntry {α : Type} : List (String × α) → String → Option α
  | [], _ => none
  | (k', v) :: rest, k => if k' = k then some v else lookupEntry rest k

/-- Association-list store with mapping semantics: overwriting an existing
key replaces its value in place (insertion order preserved); a new key is
appended at the end. -/
def setEntry {α : Type} : List (String × α) → String → α → List (String × α)
  | [], k, v => [(k, v)]
  | (k', v') :: rest, k, v =>
    if k' = k then (k, v) :: rest else (k', v') :: setEntry rest k v

/-- Modelled from the spec: `LazyImportDict` (the spec's LazyMap), absent
from src/.  `data` is the underlying mapping from string key to slot; the
two booleans are per-instance configuration attributes, physically separate
from the entries. -/
structure LazyImportDict where
  data : List (String × Slot)
  auto_import_strings : Bool
  eager_load : Bool
deriving DecidableEq, Repr

/-- A freshly constructed `LazyImportDict`: no entries,
`auto_import_strings = true`, `eager_load = false` (the spec's defaults). -/
def LazyImportDict.init : LazyImportDict := ⟨[], true, false⟩

/-- Attribute assignment `m.auto_import_strings = b`. -/
def LazyImportDict.setAutoImportStrings (m : LazyImportDict) (b : Bool) :
    LazyImportDict :=
  ⟨m.data, b, m.eager_load⟩

/-- Attribute assignment `m.eager_load = b`. -/
def LazyImportDict.setEagerLoad (m : LazyImportDict) (b : Bool) :
    LazyImportDict :=
  ⟨m.data, m.auto_import_strings, b⟩

/-- Modelled from the spec: `LazyImportDict.__setitem__` (the spec's
`write`), absent from src/.  If `auto_import_strings` is enabled and the
value is a plain string, wrap it as a pending `ImportString`; otherwise
store it verbatim.  If `eager_load` is enabled and the computed
representation is pending, resolve immediately at write time and store the
resolved object instead; a failed eager resolution propagates the
resolution error. -/
def LazyImportDict.write (env : Env) (m : LazyImportDict) (k : String)
    (v : PyVal) : Except Err LazyImportDict :=
  match v with
  | .str s =>
    if m.auto_import_strings then
      if m.eager_load then
        match ImportString.load env s with
        | .ok r => .ok ⟨setEntry m.data k (.plain r), m.auto_import_strings, m.eager_load⟩
        | .error e => .error e
      else
        .ok ⟨setEntry m.data k (.importString s), m.auto_import_strings, m.eager_load⟩
    else
      .ok ⟨setEntry m.data k (.plain v), m.auto_import_strings, m.eager_load⟩
  | .obj _ => .ok ⟨setEntry m.data k (.plain v), m.auto_import_strings, m.eager_load⟩

/-- Modelled from the spec: `LazyImportDict.__getitem__` (the spec's
`read`), absent from src/.  Returns the outcome together with the map
state after the read: a missing key fails with `keyError` and leaves the
map unchanged; a pending slot is resolved, and on success the slot is
replaced in place by the resolved object, while on failure the resolution
error propagates and the slot is deliberately left pending; an
already-resolved slot is returned directly with no resolution work. -/
def LazyImportDict.read (env : Env) (m : LazyImportDict) (k : String) :
    Except Err PyVal × LazyImportDict :=
  match lookupEntry m.data k with
  | none => (.error .keyError, m)
  | some (.plain v) => (.ok v, m)
  | some (.importString s) =>
    match ImportString.load env s with
    | .ok r => (.ok r, ⟨setEntry m.data k (.plain r), m.auto_import_strings, m.eager_load⟩)
    | .error e => (.error e, m)

/-- The iterable key list of the mapping (configuration attributes are not
entries and do not appear). -/
def LazyImportDict.keys (m : LazyImportDict) : List String :=
  m.data.map Prod.fst

/-- `len(m)`: the number of entries. -/
def LazyImportDict.size (m : LazyImportDict) : Nat :=
  m.data.length

/-- Membership test `k in m` over the entry key set. -/
def LazyImportDict.contains (m : LazyImportDict) (k : String) : Bool :=
  (lookupEntry m.data k).isSome

/-- The slot the map holds under `k` right after `write`, or `none` when
the write failed or the key is somehow absent: the observation the tests
make through `registry.data[key]`. -/
def writtenSlot (env : Env) (m : LazyImportDict) (k : String) (v : PyVal) :
    Option Slot :=
  match LazyImportDict.write env m k v with
  | .ok m' => lookupEntry m'.data k
  | .error _ => none

/-- Modelled from the spec: `Registry`, absent from src/ — a thin identity
wrapper around a LazyImportDict: the same read/write contract plus a
read-only `name` fixed at construction. -/
structure Registry where
  name : String
  map : LazyImportDict
deriving DecidableEq, Repr

/-- A new empty Registry with the given name and default settings. -/
def Registry.init (name : String) : Registry :=
  ⟨name, LazyImportDict.init⟩

/-- `Registry.__setitem__`: write into the underlying map, keeping the
name. -/
def Registry.write (env : Env) (r : Registry) (k : String) (v : PyVal) :
    Except Err Registry :=
  match LazyImportDict.write env r.map k v with
  | .ok m => .ok ⟨r.name, m⟩
  | .error e => .error e

/-- `Registry.__getitem__`: read from the underlying map, keeping the
name. -/
def Registry.read (env : Env) (r : Registry) (k : String) :
    Except Err PyVal × Registry :=
  ((LazyImportDict.read env r.map k).1, ⟨r.name, (LazyImportDict.read env r.map k).2⟩)

/-- Modelled from the spec: `Registry.register(key, value, is_instance,
eager_load)` is absent from src/ and from the spec's operation surface;
it is modelled from its documented example callers (basic_usage.py,
plugin_system.py) on top of the spec's write semantics.  With both flags
false it is an ordinary write under the instance's current settings; with
`is_instance = true` the value is stored verbatim as already resolved even
when it is a string; with `eager_load = true` a pending locator is resolved
immediately for this single write, the instance's own `eager_load` setting
being restored afterwards. -/
def Registry.register (env : Env) (r : Registry) (k : String) (v : PyVal)
    (is_inst eager : Bool) : Except Err Registry :=
  if is_inst then
    .ok ⟨r.name, ⟨setEntry r.map.data k (.plain v), r.map.auto_import_strings, r.map.eager_load⟩⟩
  else
    match Registry.write env ⟨r.name, r.map.setEagerLoad (r.map.eager_load || eager)⟩ k v with
    | .ok r2 => .ok ⟨r2.name, r2.map.setEagerLoad r.map.eager_load⟩
    | .error e => .error e

/-- Modelled from the spec: `Namespace`, absent from src/ — a mapping from
string key to Registry, auto-creating on first access of an absent key. -/
structure Namespace where
  data : List (String × Registry)
deriving DecidableEq, Repr

/-- Modelled from the spec: `Namespace.__getitem__` (the spec's
`get_or_create`), absent from src/.  If the key is present, return the
stored Registry and leave the namespace unchanged; otherwise construct a
new empty Registry named after the key, store it, and return it. -/
def Namespace.get_or_create (ns : Namespace) (k : String) :
    Registry × Namespace :=
  match lookupEntry ns.data k with
  | some r => (r, ns)
  | none => (Registry.init k, ⟨setEntry ns.data k (Registry.init k)⟩)

/-- A write through the namespace, `ns[rname][k] = v`: obtain (or create)
the registry named `rname`, write into it, and store the updated registry
back under `rname`. -/
def Namespace.writeIn (env : Env) (ns : Namespace) (rname k : String)
    (v : PyVal) : Except Err Namespace :=
  match Registry.write env (ns.get_or_create rname).1 k v with
  | .ok r2 => .ok ⟨setEntry (ns.get_or_create rname).2.data rname r2⟩
  | .error e => .error e

/-- A sample import environment for concrete witnesses: it can resolve the
locators `json:dumps` and `json:loads` and nothing else. -/
def env0 : Env := fun s =>
  if s = "json:dumps" then some (.obj 0)
  else if s = "json:loads" then some (.obj 1)
  else none

/- Helper lemmas about the association-list operations. -/

theorem lookup_setEntry_self {α : Type} (d : List (String × α)) (k : String)
    (v : α) : lookupEntry (setEntry d k v) k = some v := by
  induction d with
  | nil => simp [setEntry, lookupEntry]
  | cons p rest ih =>
    obtain ⟨k', v'⟩ := p
    by_cases h : k' = k
    · simp [setEntry, lookupEntry, h]
    · simp [setEntry, lookupEntry, h, ih]

theorem lookup_setEntry_ne {α : Type} (d : List (String × α)) (k k' : String)
    (v : α) (h : k' ≠ k) :
    lookupEntry (setEntry d k v) k' = lookupEntry d k' := by
  induction d with
  | nil => simp [setEntry, lookupEntry, Ne.symm h]
  | cons p rest ih =>
    obtain ⟨k₀, v₀⟩ := p
    by_cases hk : k₀ = k
    · subst hk
      simp [setEntry, lookupEntry, h, Ne.symm h]
    · simp only [setEntry, if_neg hk, lookupEntry]
      by_cases hk' : k₀ = k'
      · simp [hk']
      · simp [hk', ih]

theorem keys_setEntry_of_lookup {α : Type} (d : List (String × α))
    (k : String) (v w : α) (h : lookupEntry d k = some w) :
    (setEntry d k v).map Prod.fst = d.map Prod.fst := by
  induction d with
  | nil => simp [lookupEntry] at h
  | cons p rest ih =>
    obtain ⟨k₀, v₀⟩ := p
    by_cases hk : k₀ = k
    · simp [setEntry, hk]
    · simp only [lookupEntry, if_neg hk] at h
      simp [setEntry, if_neg hk, ih h]

/-- A successful write never changes the configuration settings of the
instance. -/
theorem write_ok_settings (env : Env) (m m' : LazyImportDict) (k : String)
    (v : PyVal) (h : LazyImportDict.write env m k v = .ok m') :
    m'.auto_import_strings = m.auto_import_strings ∧
      m'.eager_load = m.eager_load := by
  cases v with
  | str s =>
    by_cases hauto : m.auto_import_strings
    · by_cases heager : m.eager_load
      · cases hload : ImportString.load env s with
        | ok r =>
          simp [LazyImportDict.write, hauto, heager, hload] at h
          subst h
          simp_all
        | error e =>
          simp [LazyImportDict.write, hauto, heager, hload] at h
      · simp [LazyImportDict.write, hauto, heager] at h
        subst h
        simp_all
    · simp [LazyImportDict.write, hauto] at h
      subst h
      simp_all
  | obj n =>
    simp [LazyImportDict.write] at h
    subst h
    simp_all

/-- A successful write stores some slot under the written key. -/
theorem write_ok_lookup_isSome (env : Env) (m m' : LazyImportDict)
    (k : String) (v : PyVal) (h : LazyImportDict.write env m k v = .ok m') :
    (lookupEntry m'.data k).isSome = true := by
  cases v with
  | str s =>
    by_cases hauto : m.auto_import_strings
    · by_cases heager : m.eager_load
      · cases hload : ImportString.load env s with
        | ok r =>
          simp [LazyImportDict.write, hauto, heager, hload] at h
          simp [← h, lookup_setEntry_self]
        | error e =>
          simp [LazyImportDict.write, hauto, heager, hload] at h
      · simp [LazyImportDict.write, hauto, heager] at h
        simp [← h, lookup_setEntry_self]
    · simp [LazyImportDict.write, hauto] at h
      simp [← h, lookup_setEntry_self]
  | obj n =>
    simp [LazyImportDict.write] at h
    simp [← h, lookup_setEntry_self]

/-- A read never changes the key list of the map. -/
theorem read_keys (env : Env) (m : LazyImportDict) (k : String) :
    ((LazyImportDict.read env m k).2).keys = m.keys := by
  cases hslot : lookupEntry m.data k with
  | none => simp [LazyImportDict.read, hslot]
  | some slot =>
    cases slot with
    | plain v => simp [LazyImportDict.read, hslot]
    | importString s =>
      cases hload : ImportString.load env s with
      | ok r =>
        simp [LazyImportDict.read, hslot, hload, LazyImportDict.keys,
          keys_setEntry_of_lookup m.data k _ _ hslot]
      | error e => simp [LazyImportDict.read, hslot, hload]

/-- C1: with `auto_import_strings` enabled and `eager_load` disabled,
writing a locator string stores a pending slot; the first read resolves it,
replaces the slot in place with the resolved object, and returns it; every
subsequent read, under any environment, returns the identical cached object
and leaves the map unchanged, so resolution work occurs at most once per
write of the key. -/
theorem C1_idempotent_resolution (env : Env) (m m1 : LazyImportDict)
    (k s : String) (v : PyVal)
    (hauto : m.auto_import_strings = true) (hlazy : m.eager_load = false)
    (hw : LazyImportDict.write env m k (.str s) = .ok m1)
    (hres : env s = some v) :
    lookupEntry m1.data k = some (.importString s) ∧
    (LazyImportDict.read env m1 k).1 = .ok v ∧
    lookupEntry ((LazyImportDict.read env m1 k).2).data k
      = some (.plain v) ∧
    ((LazyImportDict.read env m1 k).2).keys = m1.keys ∧
    ∀ env' : Env,
      LazyImportDict.read env' ((LazyImportDict.read env m1 k).2) k
        = (.ok v, (LazyImportDict.read env m1 k).2) := by
  simp [LazyImportDict.write, hauto, hlazy] at hw
  subst hw
  refine ⟨lookup_setEntry_self _ _ _, ?_, ?_, read_keys env _ k, ?_⟩
  · simp [LazyImportDict.read, lookup_setEntry_self, ImportString.load, hres]
  · simp [LazyImportDict.read, lookup_setEntry_self, ImportString.load, hres]
  · intro env'
    simp [LazyImportDict.read, lookup_setEntry_self, ImportString.load, hres]

/-- C1 witness at a concrete input: the environment resolves
`json:dumps`, the key `json` is written into a fresh map. -/
theorem C1_idempotent_resolution_witness :
    lookupEntry (⟨[("json", Slot.importString "json:dumps")], true, false⟩ :
        LazyImportDict).data "json" = some (.importString "json:dumps") ∧
    (LazyImportDict.read env0
        ⟨[("json", Slot.importString "json:dumps")], true, false⟩ "json").1
      = .ok (.obj 0) ∧
    lookupEntry ((LazyImportDict.read env0
        ⟨[("json", Slot.importString "json:dumps")], true, false⟩
        "json").2).data "json" = some (.plain (.obj 0)) ∧
    ((LazyImportDict.read env0
        ⟨[("json", Slot.importString "json:dumps")], true, false⟩
        "json").2).keys
      = (⟨[("json", Slot.importString "json:dumps")], true, false⟩ :
          LazyImportDict).keys ∧
    ∀ env' : Env,
      LazyImportDict.read env' ((LazyImportDict.read env0
          ⟨[("json", Slot.importString "json:dumps")], true, false⟩
          "json").2) "json"
        = (.ok (.obj 0), (LazyImportDict.read env0
            ⟨[("json", Slot.importString "json:dumps")], true, false⟩
            "json").2) :=
  C1_idempotent_resolution env0 LazyImportDict.init
    ⟨[("json", Slot.importString "json:dumps")], true, false⟩
    "json" "json:dumps" (.obj 0) rfl rfl rfl rfl

/-- C2: reading a key whose pending locator cannot be loaded fails with the
resolution error and leaves the map unchanged — the entry remains pending
under the key, so a repeated read under the same environment fails the same
way. -/
theorem C2_resolution_failure_state_unchanged (env : Env)
    (m : LazyImportDict) (k s : String)
    (hslot : lookupEntry m.data k = some (.importString s))
    (henv : env s = none) :
    LazyImportDict.read env m k = (.error .resolutionError, m) ∧
    lookupEntry ((LazyImportDict.read env m k).2).data k
      = some (.importString s) ∧
    LazyImportDict.read env ((LazyImportDict.read env m k).2) k
      = (.error .resolutionError, m) := by
  have h : LazyImportDict.read env m k = (.error .resolutionError, m) := by
    simp [LazyImportDict.read, hslot, ImportString.load, henv]
  exact ⟨h, by simp [h, hslot], by simp [h]⟩

/-- C2 witness at a concrete input: the environment cannot resolve
`nonexistent_module:function`. -/
theorem C2_resolution_failure_state_unchanged_witness :
    LazyImportDict.read env0
        ⟨[("k", Slot.importString "nonexistent_module:function")], true, false⟩
        "k"
      = (.error .resolutionError,
          ⟨[("k", Slot.importString "nonexistent_module:function")], true, false⟩) ∧
    lookupEntry ((LazyImportDict.read env0
        ⟨[("k", Slot.importString "nonexistent_module:function")], true, false⟩
        "k").2).data "k"
      = some (.importString "nonexistent_module:function") ∧
    LazyImportDict.read env0 ((LazyImportDict.read env0
        ⟨[("k", Slot.importString "nonexistent_module:function")], true, false⟩
        "k").2) "k"
      = (.error .resolutionError,
          ⟨[("k", Slot.importString "nonexistent_module:function")], true, false⟩) :=
  C2_resolution_failure_state_unchanged env0
    ⟨[("k", Slot.importString "nonexistent_module:function")], true, false⟩
    "k" "nonexistent_module:function" rfl rfl

/-- C5: with `auto_import_strings` enabled, a string written while
`eager_load` is disabled is stored as a pending locator, while the same
string written while `eager_load` is enabled is stored already resolved,
before any read. -/
theorem C5_eager_vs_lazy (env : Env) (m : LazyImportDict) (k s : String)
    (r : PyVal) (hauto : m.auto_import_strings = true) :
    (m.eager_load = false →
      writtenSlot env m k (.str s) = some (.importString s)) ∧
    (m.eager_load = true → env s = some r →
      writtenSlot env m k (.str s) = some (.plain r)) := by
  constructor
  · intro hlazy
    simp [writtenSlot, LazyImportDict.write, hauto, hlazy, lookup_setEntry_self]
  · intro heager hres
    simp [writtenSlot, LazyImportDict.write, hauto, heager, ImportString.load,
      hres, lookup_setEntry_self]

/-- C5 witness at concrete inputs: the same locator string written into a
lazy instance and into an eager instance. -/
theorem C5_eager_vs_lazy_witness :
    writtenSlot env0 LazyImportDict.init "json" (.str "json:dumps")
      = some (.importString "json:dumps") ∧
    writtenSlot env0 (LazyImportDict.init.setEagerLoad true) "json"
        (.str "json:dumps")
      = some (.plain (.obj 0)) :=
  ⟨(C5_eager_vs_lazy env0 LazyImportDict.init "json" "json:dumps"
      (.obj 0) rfl).1 rfl,
   (C5_eager_vs_lazy env0 (LazyImportDict.init.setEagerLoad true) "json"
      "json:dumps" (.obj 0) rfl).2 rfl rfl⟩

/-- C6: changing either configuration setting leaves the stored entries
untouched — every existing entry keeps the exact representation it had when
it was written. -/
theorem C6_settings_not_retroactive (m : LazyImportDict) (b : Bool)
    (k : String) :
    (m.setAutoImportStrings b).data = m.data ∧
    (m.setEagerLoad b).data = m.data ∧
    lookupEntry (m.setAutoImportStrings b).data k = lookupEntry m.data k ∧
    lookupEntry (m.setEagerLoad b).data k = lookupEntry m.data k :=
  ⟨rfl, rfl, rfl, rfl⟩

/-- C8: with `auto_import_strings` disabled a plain string is stored
verbatim as an already-resolved entry; the write succeeds and is
independent of the import environment (no locator is created and no
resolution is attempted), even when `eager_load` is enabled. -/
theorem C8_auto_disabled_stores_verbatim (env env' : Env)
    (m : LazyImportDict) (k s : String)
    (hauto : m.auto_import_strings = false) :
    LazyImportDict.write env m k (.str s)
      = .ok ⟨setEntry m.data k (.plain (.str s)), m.auto_import_strings,
          m.eager_load⟩ ∧
    writtenSlot env m k (.str s) = some (.plain (.str s)) ∧
    LazyImportDict.write env m k (.str s)
      = LazyImportDict.write env' m k (.str s) := by
  refine ⟨?_, ?_, ?_⟩
  · simp [LazyImportDict.write, hauto]
  · simp [writtenSlot, LazyImportDict.write, hauto, lookup_setEntry_self]
  · simp [LazyImportDict.write, hauto]

/-- C8 witness at a concrete input: a map with `auto_import_strings` off
and `eager_load` on, written with a plain string, against two different
environments. -/
theorem C8_auto_disabled_stores_verbatim_witness :
    LazyImportDict.write env0 ⟨[], false, true⟩ "item" (.str "plain string")
      = .ok ⟨setEntry ([] : List (String × Slot)) "item"
          (.plain (.str "plain string")), false, true⟩ ∧
    writtenSlot env0 ⟨[], false, true⟩ "item" (.str "plain string")
      = some (.plain (.str "plain string")) ∧
    LazyImportDict.write env0 ⟨[], false, true⟩ "item" (.str "plain string")
      = LazyImportDict.write (fun _ => none) ⟨[], false, true⟩ "item"
          (.str "plain string") :=
  C8_auto_disabled_stores_verbatim env0 (fun _ => none) ⟨[], false, true⟩
    "item" "plain string" rfl

/-- C9: reading an absent key fails with the key error and leaves the map
entirely unchanged. -/
theorem C9_missing_key_read (env : Env) (m : LazyImportDict) (k : String)
    (habs : lookupEntry m.data k = none) :
    LazyImportDict.read env m k = (.error .keyError, m) := by
  simp [LazyImportDict.read, habs]

/-- C9 witness at a concrete input: a fresh map read at a key never
written. -/
theorem C9_missing_key_read_witness :
    LazyImportDict.read env0 LazyImportDict.init "nonexistent"
      = (.error .keyError, LazyImportDict.init) :=
  C9_missing_key_read env0 LazyImportDict.init "nonexistent" rfl

/-- C3: subscript access on a Namespace never fails: on an absent key it
constructs a new empty Registry named after the key, stores it, and returns
it; on a present key it returns the stored Registry and leaves the
namespace unchanged; a repeated call with the same key returns that
identical Registry and changes nothing (idempotent in effect). -/
theorem C3_namespace_get_or_create (ns : Namespace) (k : String) :
    (lookupEntry ns.data k = none →
      ((ns.get_or_create k).1).name = k ∧
      ((ns.get_or_create k).1).map = LazyImportDict.init ∧
      lookupEntry ((ns.get_or_create k).2).data k
        = some (ns.get_or_create k).1) ∧
    (∀ r : Registry, lookupEntry ns.data k = some r →
      ns.get_or_create k = (r, ns)) ∧
    ((ns.get_or_create k).2).get_or_create k
      = ((ns.get_or_create k).1, (ns.get_or_create k).2) := by
  refine ⟨?_, ?_, ?_⟩
  · intro h
    simp [Namespace.get_or_create, h, Registry.init, lookup_setEntry_self]
  · intro r h
    simp [Namespace.get_or_create, h]
  · cases h : lookupEntry ns.data k with
    | some r => simp [Namespace.get_or_create, h]
    | none => simp [Namespace.get_or_create, h, lookup_setEntry_self]

/-- C3 witness at a concrete input: `models` accessed on an empty
namespace and then accessed again. -/
theorem C3_namespace_get_or_create_witness :
    (((⟨[]⟩ : Namespace).get_or_create "models").1).name = "models" ∧
    (((⟨[]⟩ : Namespace).get_or_create "models").1).map
      = LazyImportDict.init ∧
    lookupEntry (((⟨[]⟩ : Namespace).get_or_create "models").2).data "models"
      = some ((⟨[]⟩ : Namespace).get_or_create "models").1 ∧
    (((⟨[]⟩ : Namespace).get_or_create "models").2).get_or_create "models"
      = (((⟨[]⟩ : Namespace).get_or_create "models").1,
          ((⟨[]⟩ : Namespace).get_or_create "models").2) :=
  ⟨((C3_namespace_get_or_create ⟨[]⟩ "models").1 rfl).1,
   ((C3_namespace_get_or_create ⟨[]⟩ "models").1 rfl).2.1,
   ((C3_namespace_get_or_create ⟨[]⟩ "models").1 rfl).2.2,
   (C3_namespace_get_or_create ⟨[]⟩ "models").2.2⟩

/-- C4: the configuration settings and the entries are fully disjoint:
changing a setting alters neither the key list, the length, nor any
membership test; a fresh map has no entry named after either setting; a
read never changes the key list; and writing an entry whose key string
equals a setting's name stores a normal entry without altering either
setting's value. -/
theorem C4_settings_entries_disjoint (env : Env)
    (m m' m'' : LazyImportDict) (b : Bool) (v : PyVal) (k : String) :
    ((m.setEagerLoad b).keys = m.keys ∧
      (m.setAutoImportStrings b).keys = m.keys) ∧
    ((m.setEagerLoad b).size = m.size ∧
      (m.setAutoImportStrings b).size = m.size) ∧
    ((m.setEagerLoad b).contains k = m.contains k ∧
      (m.setAutoImportStrings b).contains k = m.contains k) ∧
    (LazyImportDict.init.contains "eager_load" = false ∧
      LazyImportDict.init.contains "auto_import_strings" = false) ∧
    ((LazyImportDict.read env m k).2).keys = m.keys ∧
    (LazyImportDict.write env m "eager_load" v = .ok m' →
      m'.eager_load = m.eager_load ∧
      m'.auto_import_strings = m.auto_import_strings ∧
      (lookupEntry m'.data "eager_load").isSome = true) ∧
    (LazyImportDict.write env m "auto_import_strings" v = .ok m'' →
      m''.eager_load = m.eager_load ∧
      m''.auto_import_strings = m.auto_import_strings ∧
      (lookupEntry m''.data "auto_import_strings").isSome = true) := by
  refine ⟨⟨rfl, rfl⟩, ⟨rfl, rfl⟩, ⟨rfl, rfl⟩, ⟨rfl, rfl⟩,
    read_keys env m k, ?_, ?_⟩
  · intro h
    exact ⟨(write_ok_settings env m m' _ v h).2,
      (write_ok_settings env m m' _ v h).1,
      write_ok_lookup_isSome env m m' _ v h⟩
  · intro h
    exact ⟨(write_ok_settings env m m'' _ v h).2,
      (write_ok_settings env m m'' _ v h).1,
      write_ok_lookup_isSome env m m'' _ v h⟩

/-- C4 witness at a concrete input: a fresh map, with the two
setting-named keys written as ordinary entries. -/
theorem C4_settings_entries_disjoint_witness :
    ((LazyImportDict.init.setEagerLoad true).keys
        = LazyImportDict.init.keys ∧
      (LazyImportDict.init.setAutoImportStrings true).keys
        = LazyImportDict.init.keys) ∧
    ((LazyImportDict.init.setEagerLoad true).size
        = LazyImportDict.init.size ∧
      (LazyImportDict.init.setAutoImportStrings true).size
        = LazyImportDict.init.size) ∧
    ((LazyImportDict.init.setEagerLoad true).contains "x"
        = LazyImportDict.init.contains "x" ∧
      (LazyImportDict.init.setAutoImportStrings true).contains "x"
        = LazyImportDict.init.contains "x") ∧
    (LazyImportDict.init.contains "eager_load" = false ∧
      LazyImportDict.init.contains "auto_import_strings" = false) ∧
    ((LazyImportDict.read env0 LazyImportDict.init "x").2).keys
      = LazyImportDict.init.keys ∧
    ((⟨[("eager_load", Slot.plain (.obj 5))], true, false⟩ :
        LazyImportDict).eager_load = LazyImportDict.init.eager_load ∧
      (⟨[("eager_load", Slot.plain (.obj 5))], true, false⟩ :
        LazyImportDict).auto_import_strings
        = LazyImportDict.init.auto_import_strings ∧
      (lookupEntry (⟨[("eager_load", Slot.plain (.obj 5))], true, false⟩ :
        LazyImportDict).data "eager_load").isSome = true) ∧
    ((⟨[("auto_import_strings", Slot.plain (.obj 5))], true, false⟩ :
        LazyImportDict).eager_load = LazyImportDict.init.eager_load ∧
      (⟨[("auto_import_strings", Slot.plain (.obj 5))], true, false⟩ :
        LazyImportDict).auto_import_strings
        = LazyImportDict.init.auto_import_strings ∧
      (lookupEntry (⟨[("auto_import_strings", Slot.plain (.obj 5))], true,
        false⟩ : LazyImportDict).data "auto_import_strings").isSome
        = true) :=
  ⟨(C4_settings_entries_disjoint env0 LazyImportDict.init
      ⟨[("eager_load", Slot.plain (.obj 5))], true, false⟩
      ⟨[("auto_import_strings", Slot.plain (.obj 5))], true, false⟩
      true (.obj 5) "x").1,
   (C4_settings_entries_disjoint env0 LazyImportDict.init
      ⟨[("eager_load", Slot.plain (.obj 5))], true, false⟩
      ⟨[("auto_import_strings", Slot.plain (.obj 5))], true, false⟩
      true (.obj 5) "x").2.1,
   (C4_settings_entries_disjoint env0 LazyImportDict.init
      ⟨[("eager_load", Slot.plain (.obj 5))], true, false⟩
      ⟨[("auto_import_strings", Slot.plain (.obj 5))], true, false⟩
      true (.obj 5) "x").2.2.1,
   (C4_settings_entries_disjoint env0 LazyImportDict.init
      ⟨[("eager_load", Slot.plain (.obj 5))], true, false⟩
      ⟨[("auto_import_strings", Slot.plain (.obj 5))], true, false⟩
      true (.obj 5) "x").2.2.2.1,
   (C4_settings_entries_disjoint env0 LazyImportDict.init
      ⟨[("eager_load", Slot.plain (.obj 5))], true, false⟩
      ⟨[("auto_import_strings", Slot.plain (.obj 5))], true, false⟩
      true (.obj 5) "x").2.2.2.2.1,
   (C4_settings_entries_disjoint env0 LazyImportDict.init
      ⟨[("eager_load", Slot.plain (.obj 5))], true, false⟩
      ⟨[("auto_import_strings", Slot.plain (.obj 5))], true, false⟩
      true (.obj 5) "x").2.2.2.2.2.1 rfl,
   (C4_settings_entries_disjoint env0 LazyImportDict.init
      ⟨[("eager_load", Slot.plain (.obj 5))], true, false⟩
      ⟨[("auto_import_strings", Slot.plain (.obj 5))], true, false⟩
      true (.obj 5) "x").2.2.2.2.2.2 rfl⟩

/-- C7: a write through the namespace into registry `a` leaves every other
registry `b` exactly as it was — its stored Registry (hence its key set and
its value at every key) is unchanged. -/
theorem C7_registry_isolation (env : Env) (ns ns' : Namespace)
    (a b k : String) (v : PyVal) (hab : b ≠ a)
    (hw : Namespace.writeIn env ns a k v = .ok ns') :
    lookupEntry ns'.data b = lookupEntry ns.data b := by
  unfold Namespace.writeIn at hw
  cases hr : Registry.write env (ns.get_or_create a).1 k v with
  | error e => rw [hr] at hw; simp at hw
  | ok r2 =>
    rw [hr] at hw
    simp at hw
    subst hw
    rw [show (⟨setEntry (ns.get_or_create a).2.data a r2⟩ : Namespace).data
        = setEntry (ns.get_or_create a).2.data a r2 from rfl]
    rw [lookup_setEntry_ne _ _ _ _ hab]
    cases h : lookupEntry ns.data a with
    | some r => simp [Namespace.get_or_create, h]
    | none =>
      simp [Namespace.get_or_create, h, lookup_setEntry_ne _ _ _ _ hab]

/-- C7 witness at a concrete input: writing `bert` into the `models`
registry of an empty namespace leaves the (absent) `tokenizers` registry
absent. -/
theorem C7_registry_isolation_witness :
    lookupEntry (⟨[("models", ⟨"models",
        ⟨[("bert", Slot.plain (.obj 1))], true, false⟩⟩)]⟩ :
        Namespace).data "tokenizers"
      = lookupEntry (⟨[]⟩ : Namespace).data "tokenizers" :=
  C7_registry_isolation env0 ⟨[]⟩
    ⟨[("models", ⟨"models", ⟨[("bert", Slot.plain (.obj 1))], true, false⟩⟩)]⟩
    "models" "tokenizers" "bert" (.obj 1) (by decide) rfl

/-- C10: `register(k, v)` with both flags at their defaults behaves exactly
like a write under the instance's current settings; `register(k, v,
is_instance := true)` stores the value verbatim as an already-resolved
entry even when it is a string; and `register(k, v, eager_load := true)`
resolves a locator string immediately at the call, for that single write
only, with the instance's own `eager_load` setting left as it was. -/
theorem C10_register_contract (env : Env) (r : Registry) (k s : String)
    (v w : PyVal) :
    Registry.register env r k v false false = Registry.write env r k v ∧
    Registry.register env r k v true false
      = .ok ⟨r.name, ⟨setEntry r.map.data k (.plain v),
          r.map.auto_import_strings, r.map.eager_load⟩⟩ ∧
    (r.map.auto_import_strings = true → env s = some w →
      Registry.register env r k (.str s) false true
        = .ok ⟨r.name, ⟨setEntry r.map.data k (.plain w),
            r.map.auto_import_strings, r.map.eager_load⟩⟩) := by
  refine ⟨?_, ?_, ?_⟩
  · cases v with
    | obj n =>
      simp [Registry.register, Registry.write, LazyImportDict.write,
        LazyImportDict.setEagerLoad]
    | str s' =>
      by_cases hauto : r.map.auto_import_strings
      · by_cases heager : r.map.eager_load
        · cases hload : ImportString.load env s' with
          | ok x =>
            simp [Registry.register, Registry.write, LazyImportDict.write,
              LazyImportDict.setEagerLoad, hauto, heager, hload]
          | error e =>
            simp [Registry.register, Registry.write, LazyImportDict.write,
              LazyImportDict.setEagerLoad, hauto, heager, hload]
        · simp [Registry.register, Registry.write, LazyImportDict.write,
            LazyImportDict.setEagerLoad, hauto, heager]
      · simp [Registry.register, Registry.write, LazyImportDict.write,
          LazyImportDict.setEagerLoad, hauto]
  · simp [Registry.register]
  · intro hauto hres
    simp [Registry.register, Registry.write, LazyImportDict.write,
      LazyImportDict.setEagerLoad, hauto, ImportString.load, hres]

/-- C10 witness at a concrete input: a fresh `plugins` registry, a plain
string registered as an instance, and a locator registered eagerly. -/
theorem C10_register_contract_witness :
    Registry.register env0 (Registry.init "plugins") "json"
        (.str "plain") false false
      = Registry.write env0 (Registry.init "plugins") "json"
          (.str "plain") ∧
    Registry.register env0 (Registry.init "plugins") "json"
        (.str "plain") true false
      = .ok ⟨(Registry.init "plugins").name,
          ⟨setEntry (Registry.init "plugins").map.data "json"
              (.plain (.str "plain")),
            (Registry.init "plugins").map.auto_import_strings,
            (Registry.init "plugins").map.eager_load⟩⟩ ∧
    Registry.register env0 (Registry.init "plugins") "json"
        (.str "json:dumps") false true
      = .ok ⟨(Registry.init "plugins").name,
          ⟨setEntry (Registry.init "plugins").map.data "json"
              (.plain (.obj 0)),
            (Registry.init "plugins").map.auto_import_strings,
            (Registry.init "plugins").map.eager_load⟩⟩ :=
  ⟨(C10_register_contract env0 (Registry.init "plugins") "json"
      "json:dumps" (.str "plain") (.obj 0)).1,
   (C10_register_contract env0 (Registry.init "plugins") "json"
      "json:dumps" (.str "plain") (.obj 0)).2.1,
   (C10_register_contract env0 (Registry.init "plugins") "json"
      "json:dumps" (.str "plain") (.obj 0)).2.2 rfl rfl⟩

end LazyRegistry
